import Mathlib

/-!
Verification development for the attachment-extraction and context-assembly
pipeline of the conversational-assistant backend.

Shallow embedding notes.  The pipeline performs network and library calls
(file fetch, PDF and DOCX parsing, vision analysis, OCR).  Each such external
call is modelled by an oracle value recorded in an environment structure:
the Except value holds the outcome the external call would produce for the
file at hand (ok payload, or error with the thrown message).  All control
flow, string construction, filtering, truncation and ordering logic is
translated directly from the source.  JavaScript template strings are
rendered as explicit string appends; the JS truthiness test on a string is
rendered as a comparison with the empty string, and on a number as a
comparison with zero.
-/

/-- Roles allowed in incoming conversation turns (source: MessageRole). -/
inductive MessageRole where
  | user
  | assistant
deriving DecidableEq

/-- Roles allowed in the assembled generation context (source: OpenAIMessageRole). -/
inductive OpenAIMessageRole where
  | system
  | user
  | assistant
deriving DecidableEq

/-- Widening of a conversation role into a generation-context role,
modelling the cast m.role as OpenAIMessageRole in the route. -/
def MessageRole.toOpenAI : MessageRole → OpenAIMessageRole
  | .user => .user
  | .assistant => .assistant

/-- One incoming conversation turn (source: interface Message). -/
structure Message where
  role : MessageRole
  content : String
deriving DecidableEq

/-- One entry of the assembled generation context. -/
structure OpenAIMessage where
  role : OpenAIMessageRole
  content : String
deriving DecidableEq

/-- Metadata attached to extracted content (source: ExtractedContent.metadata
in lib/fileProcessing.ts). -/
structure FileMeta where
  pages : Option Nat := none
  wordCount : Option Nat := none
  type : String
  confidence : Option Nat := none
  originalSize : Option Nat := none
  processing : Option String := none
  error : Option String := none
deriving DecidableEq

/-- Result of one extractor (source: interface ExtractedContent in
lib/fileProcessing.ts). -/
structure ExtractedContent where
  text : String
  metadata : Option FileMeta := none
deriving DecidableEq

/-- One attachment reference as supplied by the caller (source: interface
FileToProcess in the extract-content route). -/
structure FileSpec where
  name : String
  url : String
  type : String
  size : Nat
deriving DecidableEq

/-- Outcome of the pdf-parse library call (source: interface PDFParseResult). -/
structure PDFParseResult where
  text : String
  numpages : Nat
deriving DecidableEq

/-- Outcome of the Tesseract OCR call (source: TesseractResult.data). -/
structure TesseractData where
  text : String
  confidence : Nat
deriving DecidableEq

/-- Oracle outcomes for the external calls made while processing one image:
whether a vision credential is configured (process.env.OPENAI_API_KEY),
the vision completion content (none models a null/undefined message content),
and the OCR result. -/
structure ImageEnv where
  hasApiKey : Bool
  visionResponse : Except String (Option String)
  ocrResult : Except String TesseractData

/-- Oracle outcomes for the external calls made while processing one file:
the fetched byte buffer rendered as a string, the pdf-parse outcome, the
mammoth outcome, and the image-stage oracles. -/
structure FileEnv where
  fetchResult : Except String String
  pdfParse : Except String PDFParseResult
  mammothResult : Except String String
  image : ImageEnv

/-- Model of the JS call s.trim(): drops whitespace from both ends. -/
def jsTrim (s : String) : String :=
  String.mk (((s.data.dropWhile Char.isWhitespace).reverse.dropWhile Char.isWhitespace).reverse)

/-- Model of the JS word count text.split(regex on whitespace).length. -/
def jsWordCount (s : String) : Nat :=
  (s.split Char.isWhitespace).length

/-- Base system instructions of the enhanced chat route.  The source literal
is a long capability statement; this constant stands for that fixed text and
no theorem below depends on its exact wording. -/
def SYSTEM_PROMPT : String :=
  "You are Willow, an advanced AI assistant for VB Capital Partners Corp. You have access to extensive knowledge and can help with a wide range of topics while specializing in our business domain."

/-- Extra system directive pushed in research mode (source literal). -/
def RESEARCH_MODE_DIRECTIVE : String :=
  "RESEARCH MODE: Provide comprehensive research leveraging your full knowledge base. Include current trends, industry standards, regulations, and best practices. Be thorough and analytical."

/-- Extra system directive pushed in analysis mode (source literal). -/
def ANALYSIS_MODE_DIRECTIVE : String :=
  "ANALYSIS MODE: Provide detailed analysis combining uploaded documents with your broader knowledge. Include comparisons, insights, recommendations, and strategic implications."

/-- Advisory text returned when OCR finds no readable text (source literal). -/
def OCR_NO_TEXT_MESSAGE : String :=
  "This image does not appear to contain readable text. The image has been uploaded successfully, but no text content was detected through OCR analysis."

/-- Text of the catch-all record of extractFromImage (source literal). -/
def ALL_METHODS_FAILED_MESSAGE : String :=
  "I can see that you\x27ve uploaded an image file, but I\x27m unable to process it at the moment. Please describe what you see in the image, and I\x27ll be happy to help with any questions or analysis."

/-- PDF extractor (source: FileContentExtractor.extractFromPDF).  A failure
of the fetch or of the parse is caught and rethrown as the fixed message. -/
def extractFromPDF (env : FileEnv) : Except String ExtractedContent :=
  match env.fetchResult with
  | .error _ => .error "Failed to extract text from PDF"
  | .ok _ =>
    match env.pdfParse with
    | .error _ => .error "Failed to extract text from PDF"
    | .ok data =>
      .ok { text := jsTrim data.text,
            metadata := some { pages := some data.numpages,
                               wordCount := some (jsWordCount data.text),
                               type := "pdf" } }

/-- DOCX extractor (source: FileContentExtractor.extractFromDOCX). -/
def extractFromDOCX (env : FileEnv) : Except String ExtractedContent :=
  match env.fetchResult with
  | .error _ => .error "Failed to extract text from DOCX"
  | .ok _ =>
    match env.mammothResult with
    | .error _ => .error "Failed to extract text from DOCX"
    | .ok v =>
      .ok { text := jsTrim v,
            metadata := some { wordCount := some (jsWordCount v), type := "docx" } }

/-- Legacy DOC extractor (source: FileContentExtractor.extractFromDOC).
This extractor never throws: a parser or fetch failure degrades to a fixed
advisory record, and an empty parse result degrades to another advisory. -/
def extractFromDOC (env : FileEnv) : ExtractedContent :=
  match env.fetchResult with
  | .error e =>
    { text := "Unable to extract text from legacy DOC format. Please convert to DOCX or PDF.",
      metadata := some { type := "doc", error := some e } }
  | .ok _ =>
    match env.mammothResult with
    | .error e =>
      { text := "Unable to extract text from legacy DOC format. Please convert to DOCX or PDF.",
        metadata := some { type := "doc", error := some e } }
    | .ok v =>
      { text := if jsTrim v = "" then "Could not extract text from legacy DOC format. Please convert to DOCX." else jsTrim v,
        metadata := some { type := "doc" } }

/-- Plain-text extractor (source: FileContentExtractor.extractFromTXT). -/
def extractFromTXT (env : FileEnv) : Except String ExtractedContent :=
  match env.fetchResult with
  | .error _ => .error "Failed to read text file"
  | .ok content =>
    .ok { text := jsTrim content,
          metadata := some { wordCount := some (jsWordCount content), type := "txt" } }

/-- Vision stage (source: FileContentExtractor.analyzeImageWithVisionAPI).
Throws when no credential is configured, when the upstream call fails, and
when the response content is null or the empty string; otherwise returns the
trimmed description. -/
def analyzeImageWithVisionAPI (env : ImageEnv) (fileSize : Option Nat) : Except String ExtractedContent :=
  if env.hasApiKey = false then .error "OpenAI API key not configured"
  else
    match env.visionResponse with
    | .error e => .error e
    | .ok none => .error "Empty response from Vision API"
    | .ok (some d) =>
      if d = "" then .error "Empty response from Vision API"
      else
        .ok { text := jsTrim d,
              metadata := some { wordCount := some (jsWordCount (jsTrim d)),
                                 type := "image",
                                 originalSize := fileSize,
                                 processing := some "vision_api_success" } }

/-- OCR stage (source: FileContentExtractor.extractTextWithOCR).  An upstream
OCR failure propagates; an empty trimmed text yields the fixed advisory with
processing method ocr_no_text_found, still as a success. -/
def extractTextWithOCR (env : ImageEnv) (fileSize : Option Nat) : Except String ExtractedContent :=
  match env.ocrResult with
  | .error e => .error e
  | .ok r =>
    if jsTrim r.text = "" then
      .ok { text := OCR_NO_TEXT_MESSAGE,
            metadata := some { type := "image",
                               confidence := some r.confidence,
                               originalSize := fileSize,
                               processing := some "ocr_no_text_found" } }
    else
      .ok { text := "Text extracted from image:\n\n" ++ jsTrim r.text,
            metadata := some { wordCount := some (jsWordCount (jsTrim r.text)),
                               type := "image",
                               confidence := some r.confidence,
                               originalSize := fileSize,
                               processing := some "ocr_success" } }

/-- Rounding used for the kilobyte display, modelling Math.round(n / 1024). -/
def jsRoundDivKB (n : Nat) : Nat := (n + 512) / 1024

/-- File name displayed by the basic fallback (source: fileUrl split on the
slash, last component, with the JS or-default for an empty string). -/
def basicImageFileName (fileUrl : String) : String :=
  match (fileUrl.splitOn "/").getLast? with
  | some s => if s = "" then "image" else s
  | none => "image"

/-- Extension displayed by the basic fallback (source: fileName split on the
dot, last component uppercased, with the JS or-default for an empty string). -/
def basicImageExtension (fileName : String) : String :=
  match (fileName.splitOn ".").getLast? with
  | some s => if s = "" then "IMAGE" else s.toUpper
  | none => "IMAGE"

/-- Size annotation of the basic fallback; a zero size is falsy in JS and is
rendered like an absent one. -/
def basicImageSizePart (fileSize : Option Nat) : String :=
  match fileSize with
  | some n => if n = 0 then "" else ", " ++ toString (jsRoundDivKB n) ++ "KB"
  | none => ""

/-- Basic metadata-only fallback (source: FileContentExtractor.getBasicImageInfo).
Always succeeds; synthesizes a description from file name, extension and size. -/
def getBasicImageInfo (fileUrl : String) (fileSize : Option Nat) : ExtractedContent :=
  { text := "I can see that you\x27ve uploaded an image file named \"" ++ basicImageFileName fileUrl
        ++ "\" (" ++ basicImageExtension (basicImageFileName fileUrl) ++ " format"
        ++ basicImageSizePart fileSize
        ++ "). While I cannot analyze the visual content of the image at the moment, I\x27m ready to help if you can describe what\x27s in the image or let me know what specific information you\x27re looking for.",
    metadata := some { type := "image", originalSize := fileSize,
                       processing := some "basic_info_only" } }

/-- Payload of the outer catch of extractFromImage (source literal).  In this
model every fallback stage is total, so the catch-all is never reached; the
record is kept because it is one of the terminal payloads named in the code. -/
def allMethodsFailedContent (errMsg : String) : ExtractedContent :=
  { text := ALL_METHODS_FAILED_MESSAGE,
    metadata := some { type := "image", processing := some "all_methods_failed",
                       error := some errMsg } }

/-- Image content resolver (source: FileContentExtractor.extractFromImage).
Tries the vision stage when a credential is configured, catching any stage
failure; then the OCR stage, catching any failure; then the basic fallback.
Returns a plain ExtractedContent: no failure propagates to the caller. -/
def extractFromImage (env : ImageEnv) (fileUrl : String) (fileSize : Option Nat) : ExtractedContent :=
  match (if env.hasApiKey then
           match analyzeImageWithVisionAPI env fileSize with
           | .ok c => some c
           | .error _ => none
         else none) with
  | some c => c
  | none =>
    match extractTextWithOCR env fileSize with
    | .ok c => c
    | .error _ => getBasicImageInfo fileUrl fileSize

/-- Format dispatcher, the switch statement of
FileContentExtractor.extractContent: unknown declared types throw an
unsupported-file-type error. -/
def dispatchExtract (env : FileEnv) (fileUrl mimeType : String) (fileSize : Option Nat) : Except String ExtractedContent :=
  if mimeType = "application/pdf" then extractFromPDF env
  else if mimeType = "application/vnd.openxmlformats-officedocument.wordprocessingml.document" then extractFromDOCX env
  else if mimeType = "application/msword" then .ok (extractFromDOC env)
  else if mimeType = "text/plain" then extractFromTXT env
  else if mimeType = "image/jpeg" || mimeType = "image/png" || mimeType = "image/webp" || mimeType = "image/gif" then
    .ok (extractFromImage env.image fileUrl fileSize)
  else .error ("Unsupported file type: " ++ mimeType)

/-- The surrounding try-catch of extractContent: any error thrown by the
dispatch is rethrown wrapped with the declared type. -/
def extractContent (env : FileEnv) (fileUrl mimeType : String) (fileSize : Option Nat) : Except String ExtractedContent :=
  match dispatchExtract env fileUrl mimeType fileSize with
  | .ok c => .ok c
  | .error e => .error ("Failed to process " ++ mimeType ++ ": " ++ e)

/-- One record of the extraction batch response (source: interface
ExtractedContent in the extract-content route, also the FileContent shape
consumed by the chat route). -/
structure BatchRecord where
  fileName : String
  fileType : String
  fileSize : Nat
  content : String
  metadata : Option FileMeta := none
  error : Option String := none
  success : Bool
deriving DecidableEq

/-- Per-file step of the extraction loop in the extract-content route POST:
a successful extraction yields a success record carrying the text and
metadata, a thrown error is caught and yields a failure record with empty
content and the error message.  The route calls extractContent without the
file size, so none is passed here. -/
def mkRecord (f : FileSpec) (env : FileEnv) : BatchRecord :=
  match extractContent env f.url f.type none with
  | .ok c =>
    { fileName := f.name, fileType := f.type, fileSize := f.size,
      content := c.text, metadata := c.metadata, success := true }
  | .error e =>
    { fileName := f.name, fileType := f.type, fileSize := f.size,
      content := "", error := some e, success := false }

/-- The extraction loop of the extract-content route POST: iterates the files
in order, pushing one record per file onto the result array. -/
def extractBatch (inputs : List (FileSpec × FileEnv)) : List BatchRecord :=
  inputs.foldl (fun acc p => acc ++ [mkRecord p.1 p.2]) []

/-- Response of the extract-content endpoint after authentication: an empty
or missing file list is rejected with a 400 before any extraction. -/
inductive ExtractResponse where
  | ok (filesProcessed : Nat) (extractedContents : List BatchRecord)
  | badRequest (error : String)
deriving DecidableEq

/-- Body of the extract-content route POST after authentication (source:
app/api/extract-content/route.ts). -/
def postExtractContent (inputs : List (FileSpec × FileEnv)) : ExtractResponse :=
  if inputs.length = 0 then .badRequest "No files provided"
  else .ok inputs.length (extractBatch inputs)

/-- Chat-route batch processing (source: processFiles in the enhanced chat
route).  The outcome oracle is the whole-batch extraction call under the
8 second outer timeout: ok carries the parsed extractedContents list, error
models a timeout abort, a non-ok response or a network failure, all of which
are caught and degrade every file to a generic failure record. -/
def processFiles (files : List FileSpec) (outcome : Except String (List BatchRecord)) : List BatchRecord :=
  match outcome with
  | .ok extracted => extracted
  | .error _ =>
    files.map (fun f =>
      { fileName := f.name, fileType := f.type, fileSize := f.size,
        content := "",
        error := some "Failed to extract content from this file",
        success := false })

/-- Character ceiling for one file in the file-context block (source:
MAX_FILE_CONTENT in buildEnhancedMessages). -/
def MAX_FILE_CONTENT : Nat := 10000

/-- Marker appended when a file is truncated (source literal). -/
def TRUNCATION_MARKER : String := "\n\n[Content truncated for performance...]"

/-- Model of the JS call s.substring(0, n). -/
def jsSubstring (s : String) (n : Nat) : String := String.mk (s.data.take n)

/-- Per-file truncation of buildEnhancedMessages: content longer than the
ceiling is cut at the ceiling and the marker is appended. -/
def truncateFileContent (content : String) : String :=
  if content.length > MAX_FILE_CONTENT then
    jsSubstring content MAX_FILE_CONTENT ++ TRUNCATION_MARKER
  else content

/-- Metadata annotation of one file block (source: the template string over
fc.metadata in buildEnhancedMessages; a zero word or page count is falsy in
JS and is skipped exactly like an absent one). -/
def metadataTag (md : Option FileMeta) : String :=
  match md with
  | none => ""
  | some m =>
    "(" ++ m.type.toUpper
      ++ (match m.wordCount with
          | some w => if w = 0 then "" else ", " ++ toString w ++ " words"
          | none => "")
      ++ (match m.pages with
          | some p => if p = 0 then "" else ", " ++ toString p ++ " pages"
          | none => "")
      ++ ")"

/-- Filter selecting the files that contribute to the file-context block
(source: validFiles in buildEnhancedMessages, the JS test
fc.success and fc.content and fc.content.trim()). -/
def validFiles (fileContents : List BatchRecord) : List BatchRecord :=
  fileContents.filter (fun fc => fc.success && (fc.content != "") && (jsTrim fc.content != ""))

/-- One labeled file block (source: the map body in buildEnhancedMessages). -/
def fileBlock (fc : BatchRecord) : String :=
  "=== FILE: " ++ fc.fileName ++ " " ++ metadataTag fc.metadata ++ " ===\n"
    ++ truncateFileContent fc.content ++ "\n"

/-- Preamble of the file-context user message (source literal). -/
def FILE_CONTEXT_PREAMBLE : String :=
  "Here are the uploaded files and their contents. Please analyze them using your extensive knowledge base and VB Capital\x27s expertise:\n\n"

/-- The optional file-context entry of the assembled context (source: the
fileContents branch of buildEnhancedMessages): emitted only when the batch
is non-empty and at least one record passes the validFiles filter. -/
def fileContextPart (fileContents : List BatchRecord) : List OpenAIMessage :=
  if fileContents.length > 0 then
    if (validFiles fileContents).length > 0 then
      [{ role := .user,
         content := FILE_CONTEXT_PREAMBLE
           ++ String.intercalate "\n" ((validFiles fileContents).map fileBlock) }]
    else []
  else []

/-- The optional mode directive (source: the mode branch of
buildEnhancedMessages). -/
def modeDirective (mode : String) : List OpenAIMessage :=
  if mode = "research" then [{ role := .system, content := RESEARCH_MODE_DIRECTIVE }]
  else if mode = "analysis" then [{ role := .system, content := ANALYSIS_MODE_DIRECTIVE }]
  else []

/-- Conversion of one history turn into a generation-context entry (source:
the final map of buildEnhancedMessages). -/
def historyEntry (m : Message) : OpenAIMessage :=
  { role := m.role.toOpenAI, content := m.content }

/-- Context assembler (source: buildEnhancedMessages in the enhanced chat
route): base instructions, optional mode directive, optional file-context
entry, then the conversation history in original order. -/
def buildEnhancedMessages (messages : List Message) (fileContents : List BatchRecord) (mode : String) : List OpenAIMessage :=
  [{ role := .system, content := SYSTEM_PROMPT }]
    ++ modeDirective mode
    ++ fileContextPart fileContents
    ++ messages.map historyEntry

/-- Generation parameters (source: the return shape of getOpenAIConfig). -/
structure OpenAIConfig where
  model : String
  temperature : ℚ
  maxTokens : Nat
  topP : ℚ
  frequencyPenalty : ℚ
  presencePenalty : ℚ
deriving DecidableEq

/-- Configuration of research mode (source literal). -/
def researchConfig : OpenAIConfig :=
  { model := "gpt-4o", temperature := 0.3, maxTokens := 4000,
    topP := 0.9, frequencyPenalty := 0.1, presencePenalty := 0.1 }

/-- Configuration of analysis mode (source literal). -/
def analysisConfig : OpenAIConfig :=
  { model := "gpt-4o", temperature := 0.4, maxTokens := 3500,
    topP := 0.8, frequencyPenalty := 0.2, presencePenalty := 0.1 }

/-- Configuration of standard mode, the default switch branch (source literal). -/
def standardConfig : OpenAIConfig :=
  { model := "gpt-4o-mini", temperature := 0.5, maxTokens := 2500,
    topP := 0.9, frequencyPenalty := 0.0, presencePenalty := 0.0 }

/-- Mode configuration resolver (source: getOpenAIConfig): a total function
whose default branch is the standard configuration. -/
def getOpenAIConfig (mode : String) : OpenAIConfig :=
  if mode = "research" then researchConfig
  else if mode = "analysis" then analysisConfig
  else standardConfig

/-- Default applied when the request carries no mode field (source: the
destructuring default mode = standard in the chat route POST). -/
def resolveMode (mode : Option String) : String := mode.getD "standard"

/-- Folding the push of one mapped element over a list, starting from any
accumulator, produces the accumulator followed by the mapped list.  This is
the shape of the extraction loop in the extract-content route. -/
theorem foldl_push_eq_map {α β : Type} (f : α → β) (l : List α) (acc : List β) :
    l.foldl (fun a x => a ++ [f x]) acc = acc ++ l.map f := by
  induction l generalizing acc with
  | nil => simp
  | cons x xs ih => simp [ih]

/-- The extraction loop produces exactly the per-input records, in order. -/
theorem extractBatch_eq_map (inputs : List (FileSpec × FileEnv)) :
    extractBatch inputs = inputs.map (fun p => mkRecord p.1 p.2) := by
  simpa [extractBatch] using
    foldl_push_eq_map (fun p : FileSpec × FileEnv => mkRecord p.1 p.2) inputs []

/-- A string with a non-empty left part of an append is non-empty. -/
theorem append_ne_empty_left (a b : String) (h : a.length ≠ 0) : a ++ b ≠ "" := by
  intro hEq
  apply h
  have hlen : (a ++ b).length = 0 := by rw [hEq]; rfl
  rw [String.length_append] at hlen
  omega

/-- Every record passing the validFiles filter is a success with non-empty
content and non-empty trimmed content. -/
theorem mem_validFiles (fc : BatchRecord) (l : List BatchRecord) (h : fc ∈ validFiles l) :
    fc.success = true ∧ fc.content ≠ "" ∧ jsTrim fc.content ≠ "" := by
  unfold validFiles at h
  rw [List.mem_filter] at h
  obtain ⟨-, hp⟩ := h
  simp only [Bool.and_eq_true, bne_iff_ne, ne_eq] at hp
  exact ⟨hp.1.1, hp.1.2, hp.2⟩

/-- A batch in which every record is a failure has no valid files. -/
theorem validFiles_eq_nil_of_fail (l : List BatchRecord) (h : ∀ r ∈ l, r.success = false) :
    validFiles l = [] := by
  unfold validFiles
  rw [List.filter_eq_nil_iff]
  intro a ha
  simp [h a ha]

/-- With no valid files, no file-context entry is emitted. -/
theorem fileContextPart_eq_nil (l : List BatchRecord) (h : validFiles l = []) :
    fileContextPart l = [] := by
  unfold fileContextPart
  rw [h]
  simp

/-- The mode directive is empty in standard mode. -/
theorem modeDirective_standard : modeDirective "standard" = [] := rfl

/-- The mode directive in research mode is one system entry. -/
theorem modeDirective_research :
    modeDirective "research" = [{ role := .system, content := RESEARCH_MODE_DIRECTIVE }] := rfl

/-- The mode directive in analysis mode is one system entry. -/
theorem modeDirective_analysis :
    modeDirective "analysis" = [{ role := .system, content := ANALYSIS_MODE_DIRECTIVE }] := rfl

/-- Length of the modelled JS substring call. -/
theorem jsSubstring_length (s : String) (n : Nat) :
    (jsSubstring s n).length = min n s.length := by
  show (s.data.take n).length = min n s.length
  rw [List.length_take]
  rfl

/-- On any of the four image content types, the dispatcher hands the file to
the image content resolver and never fails. -/
theorem extractContent_image (env : FileEnv) (url mt : String) (fs : Option Nat)
    (h : mt = "image/jpeg" ∨ mt = "image/png" ∨ mt = "image/webp" ∨ mt = "image/gif") :
    extractContent env url mt fs = .ok (extractFromImage env.image url fs) := by
  rcases h with h|h|h|h <;> subst h <;> rfl

/-- Image-stage oracles of a sample environment in which no external image
capability is available. -/
def sampleImageEnv : ImageEnv :=
  { hasApiKey := false, visionResponse := .error "no key", ocrResult := .error "no ocr" }

/-- Sample per-file environment: the fetch succeeds with a short text buffer
and every parser oracle fails. -/
def sampleEnv : FileEnv :=
  { fetchResult := .ok "hello world", pdfParse := .error "bad pdf",
    mammothResult := .error "bad docx", image := sampleImageEnv }

/-- Sample two-file batch: a plain-text file and an unsupported video file. -/
def sampleInputs : List (FileSpec × FileEnv) :=
  [ ({ name := "notes.txt", url := "/uploads/notes.txt", type := "text/plain", size := 11 }, sampleEnv),
    ({ name := "clip.mp4", url := "/uploads/clip.mp4", type := "video/mp4", size := 999 }, sampleEnv) ]

/-- C1: for every accepted batch of N attachment references, the extraction
endpoint returns an extractedContents sequence of exactly N records, the
i-th record being the one produced from the i-th input, whatever the
individual per-file outcomes are.  An empty batch is rejected with a 400
before any extraction, so accepted batches are the non-empty ones. -/
theorem extraction_batch_one_record_per_input (inputs : List (FileSpec × FileEnv))
    (h : inputs ≠ []) :
    postExtractContent inputs = ExtractResponse.ok inputs.length (extractBatch inputs) ∧
    (extractBatch inputs).length = inputs.length ∧
    extractBatch inputs = inputs.map (fun p => mkRecord p.1 p.2) := by
  refine ⟨?_, ?_, extractBatch_eq_map inputs⟩
  · unfold postExtractContent
    rw [if_neg]
    intro h0
    exact h (List.length_eq_zero.mp h0)
  · rw [extractBatch_eq_map]
    exact List.length_map _ _

/-- Witness for C1 at a concrete two-file batch. -/
theorem extraction_batch_one_record_per_input_witness :
    sampleInputs ≠ [] ∧
    (postExtractContent sampleInputs = ExtractResponse.ok sampleInputs.length (extractBatch sampleInputs) ∧
     (extractBatch sampleInputs).length = sampleInputs.length ∧
     extractBatch sampleInputs = sampleInputs.map (fun p => mkRecord p.1 p.2)) :=
  ⟨by simp [sampleInputs], extraction_batch_one_record_per_input sampleInputs (by simp [sampleInputs])⟩

/-- The declared content types the dispatcher recognizes. -/
def supportedTypes : List String :=
  ["application/pdf",
   "application/vnd.openxmlformats-officedocument.wordprocessingml.document",
   "application/msword", "text/plain",
   "image/jpeg", "image/png", "image/webp", "image/gif"]

/-- C6: an attachment with an unrecognized declared content type yields a
failure record whose error message names the offending type, and every
record of a batch depends only on its own input, so siblings are unaffected
and the batch function is total. -/
theorem unsupported_type_isolated_failure (f : FileSpec) (env : FileEnv)
    (h : f.type ∉ supportedTypes) :
    mkRecord f env =
      { fileName := f.name, fileType := f.type, fileSize := f.size, content := "",
        error := some ("Failed to process " ++ f.type ++ ": " ++ ("Unsupported file type: " ++ f.type)),
        success := false } ∧
    (∃ s1 s2, "Failed to process " ++ f.type ++ ": " ++ ("Unsupported file type: " ++ f.type)
        = s1 ++ f.type ++ s2) ∧
    (∀ (inputs : List (FileSpec × FileEnv)) (j : Nat),
      (extractBatch inputs)[j]? = (inputs[j]?).map (fun p => mkRecord p.1 p.2)) := by
  have h1 : f.type ≠ "application/pdf" := fun hc => h (by rw [hc]; simp [supportedTypes])
  have h2 : f.type ≠ "application/vnd.openxmlformats-officedocument.wordprocessingml.document" :=
    fun hc => h (by rw [hc]; simp [supportedTypes])
  have h3 : f.type ≠ "application/msword" := fun hc => h (by rw [hc]; simp [supportedTypes])
  have h4 : f.type ≠ "text/plain" := fun hc => h (by rw [hc]; simp [supportedTypes])
  have h5 : f.type ≠ "image/jpeg" := fun hc => h (by rw [hc]; simp [supportedTypes])
  have h6 : f.type ≠ "image/png" := fun hc => h (by rw [hc]; simp [supportedTypes])
  have h7 : f.type ≠ "image/webp" := fun hc => h (by rw [hc]; simp [supportedTypes])
  have h8 : f.type ≠ "image/gif" := fun hc => h (by rw [hc]; simp [supportedTypes])
  refine ⟨?_, ⟨"Failed to process ", ": " ++ ("Unsupported file type: " ++ f.type), ?_⟩, ?_⟩
  · simp [mkRecord, extractContent, dispatchExtract, h1, h2, h3, h4, h5, h6, h7, h8]
  · simp [String.append_assoc]
  · intro inputs j
    rw [extractBatch_eq_map]
    exact List.getElem?_map _ _ _

/-- The unsupported video file used as concrete input. -/
def videoFile : FileSpec := { name := "clip.mp4", url := "/uploads/clip.mp4", type := "video/mp4", size := 999 }

/-- Witness for C6 at a concrete video attachment. -/
theorem unsupported_type_isolated_failure_witness :
    videoFile.type ∉ supportedTypes ∧
    (mkRecord videoFile sampleEnv =
      { fileName := videoFile.name, fileType := videoFile.type, fileSize := videoFile.size, content := "",
        error := some ("Failed to process " ++ videoFile.type ++ ": " ++ ("Unsupported file type: " ++ videoFile.type)),
        success := false } ∧
     (∃ s1 s2, "Failed to process " ++ videoFile.type ++ ": " ++ ("Unsupported file type: " ++ videoFile.type)
        = s1 ++ videoFile.type ++ s2) ∧
     (∀ (inputs : List (FileSpec × FileEnv)) (j : Nat),
       (extractBatch inputs)[j]? = (inputs[j]?).map (fun p => mkRecord p.1 p.2))) :=
  ⟨by decide, unsupported_type_isolated_failure videoFile sampleEnv (by decide)⟩

/-- C7: mode resolution is total; an absent mode field or any mode string
other than research and analysis resolves to the standard configuration,
which has the smallest token ceiling of the three fixed configurations and
the fast low-cost model tier, the other two using the higher tier. -/
theorem mode_defaults_to_standard (mode : Option String)
    (h : ∀ s, mode = some s → s ≠ "research" ∧ s ≠ "analysis") :
    getOpenAIConfig (resolveMode mode) = standardConfig ∧
    standardConfig.maxTokens < researchConfig.maxTokens ∧
    standardConfig.maxTokens < analysisConfig.maxTokens ∧
    standardConfig.model = "gpt-4o-mini" ∧
    researchConfig.model = "gpt-4o" ∧
    analysisConfig.model = "gpt-4o" := by
  refine ⟨?_, by decide, by decide, rfl, rfl, rfl⟩
  cases mode with
  | none => rfl
  | some s =>
    obtain ⟨hr, ha⟩ := h s rfl
    unfold getOpenAIConfig resolveMode
    simp [hr, ha]

/-- Witness for C7 at a concrete unrecognized mode string. -/
theorem mode_defaults_to_standard_witness :
    getOpenAIConfig (resolveMode (some "turbo")) = standardConfig ∧
    standardConfig.maxTokens < researchConfig.maxTokens ∧
    standardConfig.maxTokens < analysisConfig.maxTokens ∧
    standardConfig.model = "gpt-4o-mini" ∧
    researchConfig.model = "gpt-4o" ∧
    analysisConfig.model = "gpt-4o" :=
  mode_defaults_to_standard (some "turbo")
    (by
      intro s hs
      injection hs with he
      subst he
      exact ⟨by decide, by decide⟩)

/-- C2: for every request with a mode from the declared enumeration, the
assembled context is a block of system entries, then an optional single
user-role file-context entry, then the history in original order; the
system block starts with the base instructions and has one entry in
standard mode and two (base then directive) otherwise, and no history
entry carries the system role. -/
theorem assembled_context_structure (messages : List Message)
    (fileContents : List BatchRecord) (mode : String)
    (h : mode = "standard" ∨ mode = "research" ∨ mode = "analysis") :
    ∃ pre filePart,
      buildEnhancedMessages messages fileContents mode
        = pre ++ filePart ++ messages.map historyEntry ∧
      pre.head? = some { role := .system, content := SYSTEM_PROMPT } ∧
      (∀ m ∈ pre, m.role = .system) ∧
      pre.length = (if mode = "standard" then 1 else 2) ∧
      (filePart = [] ∨ ∃ c, filePart = [{ role := .user, content := c }]) ∧
      (∀ m ∈ messages.map historyEntry, m.role ≠ .system) := by
  refine ⟨[{ role := .system, content := SYSTEM_PROMPT }] ++ modeDirective mode,
         fileContextPart fileContents, ?_, ?_, ?_, ?_, ?_, ?_⟩
  · simp [buildEnhancedMessages]
  · rfl
  · intro m hm
    rcases List.mem_append.mp hm with hm | hm
    · rw [List.mem_singleton] at hm
      subst hm
      rfl
    · rcases h with h|h|h <;> subst h
      · rw [modeDirective_standard] at hm
        simp at hm
      · rw [modeDirective_research, List.mem_singleton] at hm
        subst hm
        rfl
      · rw [modeDirective_analysis, List.mem_singleton] at hm
        subst hm
        rfl
  · rcases h with h|h|h <;> subst h <;> decide
  · unfold fileContextPart
    split
    · split
      · right
        exact ⟨_, rfl⟩
      · left
        rfl
    · left
      rfl
  · intro m hm
    rw [List.mem_map] at hm
    obtain ⟨x, -, rfl⟩ := hm
    rcases x with ⟨r, c⟩
    cases r <;> simp [historyEntry, MessageRole.toOpenAI]

/-- A failure record for a concrete unsupported attachment. -/
def failedRec0 : BatchRecord :=
  { fileName := "clip.mp4", fileType := "video/mp4", fileSize := 7, content := "",
    error := some "Failed to process video/mp4: Unsupported file type: video/mp4",
    success := false }

/-- A concrete conversation turn. -/
def msg0 : Message := { role := .user, content := "hi" }

/-- Witness for C2 at a concrete research-mode request. -/
theorem assembled_context_structure_witness :
    (("research" : String) = "standard" ∨ ("research" : String) = "research" ∨ ("research" : String) = "analysis") ∧
    (∃ pre filePart,
      buildEnhancedMessages [msg0] [failedRec0] "research"
        = pre ++ filePart ++ [msg0].map historyEntry ∧
      pre.head? = some { role := .system, content := SYSTEM_PROMPT } ∧
      (∀ m ∈ pre, m.role = .system) ∧
      pre.length = (if ("research" : String) = "standard" then 1 else 2) ∧
      (filePart = [] ∨ ∃ c, filePart = [{ role := .user, content := c }]) ∧
      (∀ m ∈ [msg0].map historyEntry, m.role ≠ .system)) :=
  ⟨Or.inr (Or.inl rfl),
   assembled_context_structure [msg0] [failedRec0] "research" (Or.inr (Or.inl rfl))⟩

/-- C3: only records with success and non-empty trimmed content pass the
file filter; the file-context entry, when emitted, is the single user-role
message assembled from exactly those records; and when no record qualifies
the assembled context carries no file-context entry at all. -/
theorem fileContext_only_successful_nonempty (messages : List Message)
    (fileContents : List BatchRecord) (mode : String) :
    (∀ fc ∈ validFiles fileContents,
        fc.success = true ∧ fc.content ≠ "" ∧ jsTrim fc.content ≠ "") ∧
    (validFiles fileContents ≠ [] →
      fileContextPart fileContents =
        [{ role := .user,
           content := FILE_CONTEXT_PREAMBLE
             ++ String.intercalate "\n" ((validFiles fileContents).map fileBlock) }]) ∧
    (validFiles fileContents = [] →
      buildEnhancedMessages messages fileContents mode =
        [{ role := .system, content := SYSTEM_PROMPT }] ++ modeDirective mode
          ++ messages.map historyEntry) := by
  refine ⟨fun fc hfc => mem_validFiles fc fileContents hfc, ?_, ?_⟩
  · intro hne
    have hlen : (validFiles fileContents).length > 0 := List.length_pos.mpr hne
    have hflen : fileContents.length > 0 := by
      rcases fileContents with - | ⟨a, l⟩
      · exact absurd rfl hne
      · simp
    unfold fileContextPart
    rw [if_pos hflen, if_pos hlen]
  · intro hnil
    unfold buildEnhancedMessages
    rw [fileContextPart_eq_nil _ hnil]
    simp

/-- Witness for C3 at a batch whose only record is a failure. -/
theorem fileContext_only_successful_nonempty_witness :
    validFiles [failedRec0] = [] ∧
    buildEnhancedMessages [msg0] [failedRec0] "standard" =
      [{ role := .system, content := SYSTEM_PROMPT }] ++ modeDirective "standard"
        ++ [msg0].map historyEntry :=
  ⟨by decide,
   (fileContext_only_successful_nonempty [msg0] [failedRec0] "standard").2.2 (by decide)⟩

/-- C4: per-file truncation in the context assembler.  Content at or below
the 10000-character ceiling is included unchanged; longer content is cut at
the ceiling with the marker appended, so the stored length is exactly the
ceiling plus the marker length, and in every case the stored length is at
most the ceiling plus the marker length. -/
theorem fileContent_truncation (content : String) :
    (content.length ≤ MAX_FILE_CONTENT → truncateFileContent content = content) ∧
    (content.length > MAX_FILE_CONTENT →
      truncateFileContent content = jsSubstring content MAX_FILE_CONTENT ++ TRUNCATION_MARKER ∧
      (truncateFileContent content).length = MAX_FILE_CONTENT + TRUNCATION_MARKER.length) ∧
    (truncateFileContent content).length ≤ MAX_FILE_CONTENT + TRUNCATION_MARKER.length := by
  unfold truncateFileContent
  by_cases h : content.length > MAX_FILE_CONTENT
  · rw [if_pos h]
    have hcut : (jsSubstring content MAX_FILE_CONTENT ++ TRUNCATION_MARKER).length
        = MAX_FILE_CONTENT + TRUNCATION_MARKER.length := by
      rw [String.length_append, jsSubstring_length]
      have hmin : min MAX_FILE_CONTENT content.length = MAX_FILE_CONTENT := by omega
      rw [hmin]
    exact ⟨fun hle => absurd h (by omega), fun _ => ⟨rfl, hcut⟩, by omega⟩
  · rw [if_neg h]
    exact ⟨fun _ => rfl, fun hgt => absurd hgt h, by omega⟩

/-- A concrete string one character above the truncation ceiling. -/
def bigContent : String := String.mk (List.replicate 10001 'a')

/-- Witness for C4 at a concrete over-limit string. -/
theorem fileContent_truncation_witness :
    bigContent.length > MAX_FILE_CONTENT ∧
    (truncateFileContent bigContent = jsSubstring bigContent MAX_FILE_CONTENT ++ TRUNCATION_MARKER ∧
     (truncateFileContent bigContent).length = MAX_FILE_CONTENT + TRUNCATION_MARKER.length) := by
  have h : bigContent.length > MAX_FILE_CONTENT := by
    show (List.replicate 10001 'a').length > MAX_FILE_CONTENT
    rw [List.length_replicate]
    decide
  exact ⟨h, (fileContent_truncation bigContent).2.1 h⟩

/-- C5: the image content resolver always reaches a terminal state and
returns an ExtractedContent, never an error: whatever the oracle outcomes
of the vision and OCR stages, the result is the vision description when a
credential is configured and the vision stage succeeds, otherwise the OCR
result when that stage succeeds, otherwise the basic metadata-only
description. -/
theorem image_resolver_total_cascade (env : ImageEnv) (fileUrl : String) (fileSize : Option Nat) :
    (∃ c, env.hasApiKey = true ∧ analyzeImageWithVisionAPI env fileSize = .ok c ∧
          extractFromImage env fileUrl fileSize = c) ∨
    ((env.hasApiKey = false ∨ ∃ e, analyzeImageWithVisionAPI env fileSize = .error e) ∧
      ((∃ c, extractTextWithOCR env fileSize = .ok c ∧
             extractFromImage env fileUrl fileSize = c) ∨
       ((∃ e, extractTextWithOCR env fileSize = .error e) ∧
         extractFromImage env fileUrl fileSize = getBasicImageInfo fileUrl fileSize))) := by
  cases hk : env.hasApiKey with
  | true =>
    cases hv : analyzeImageWithVisionAPI env fileSize with
    | ok c =>
      exact Or.inl ⟨c, rfl, rfl, by simp [extractFromImage, hk, hv]⟩
    | error e =>
      refine Or.inr ⟨Or.inr ⟨e, rfl⟩, ?_⟩
      cases ho : extractTextWithOCR env fileSize with
      | ok c => exact Or.inl ⟨c, rfl, by simp [extractFromImage, hk, hv, ho]⟩
      | error e2 => exact Or.inr ⟨⟨e2, rfl⟩, by simp [extractFromImage, hk, hv, ho]⟩
  | false =>
    refine Or.inr ⟨Or.inl rfl, ?_⟩
    cases ho : extractTextWithOCR env fileSize with
    | ok c => exact Or.inl ⟨c, rfl, by simp [extractFromImage, hk, ho]⟩
    | error e2 => exact Or.inr ⟨⟨e2, rfl⟩, by simp [extractFromImage, hk, ho]⟩

/-- C8: when the whole-batch extraction call fails or exceeds the outer
timeout, every file of the batch receives a failure record with empty
content and the generic failed-to-extract reason, one record per file, and
the assembled context for the continuing chat request contains no
file-context entry. -/
theorem outer_timeout_degrades_batch (files : List FileSpec) (e : String)
    (messages : List Message) (mode : String) :
    processFiles files (.error e) =
      files.map (fun f =>
        { fileName := f.name, fileType := f.type, fileSize := f.size, content := "",
          error := some "Failed to extract content from this file", success := false }) ∧
    (processFiles files (.error e)).length = files.length ∧
    (∀ r ∈ processFiles files (.error e),
        r.success = false ∧ r.content = "" ∧
        r.error = some "Failed to extract content from this file") ∧
    buildEnhancedMessages messages (processFiles files (.error e)) mode =
      [{ role := .system, content := SYSTEM_PROMPT }] ++ modeDirective mode
        ++ messages.map historyEntry := by
  refine ⟨rfl, by simp [processFiles], ?_, ?_⟩
  · intro r hr
    simp only [processFiles, List.mem_map] at hr
    obtain ⟨f, -, rfl⟩ := hr
    exact ⟨rfl, rfl, rfl⟩
  · have hfail : ∀ r ∈ processFiles files (.error e), r.success = false := by
      intro r hr
      simp only [processFiles, List.mem_map] at hr
      obtain ⟨f, -, rfl⟩ := hr
      rfl
    unfold buildEnhancedMessages
    rw [fileContextPart_eq_nil _ (validFiles_eq_nil_of_fail _ hfail)]
    simp

/-- Witness for C8 at a concrete one-file batch and a timeout error. -/
theorem outer_timeout_degrades_batch_witness :
    processFiles [videoFile] (.error "timeout") =
      [videoFile].map (fun f =>
        { fileName := f.name, fileType := f.type, fileSize := f.size, content := "",
          error := some "Failed to extract content from this file", success := false }) ∧
    (processFiles [videoFile] (.error "timeout")).length = [videoFile].length ∧
    (∀ r ∈ processFiles [videoFile] (.error "timeout"),
        r.success = false ∧ r.content = "" ∧
        r.error = some "Failed to extract content from this file") ∧
    buildEnhancedMessages [msg0] (processFiles [videoFile] (.error "timeout")) "standard" =
      [{ role := .system, content := SYSTEM_PROMPT }] ++ modeDirective "standard"
        ++ [msg0].map historyEntry :=
  outer_timeout_degrades_batch [videoFile] "timeout" [msg0] "standard"

/-- C9: for an image attachment processed with no vision credential, when
OCR completes with text whose trim is empty, the batch record is a success
whose content is the advisory message and whose metadata carries the
processing method ocr_no_text_found. -/
theorem image_ocr_no_text_success (f : FileSpec) (env : FileEnv) (t : String) (conf : Nat)
    (himg : f.type ∈ ["image/jpeg", "image/png", "image/webp", "image/gif"])
    (hkey : env.image.hasApiKey = false)
    (hocr : env.image.ocrResult = .ok { text := t, confidence := conf })
    (ht : jsTrim t = "") :
    mkRecord f env =
      { fileName := f.name, fileType := f.type, fileSize := f.size,
        content := OCR_NO_TEXT_MESSAGE,
        metadata := some { type := "image", confidence := some conf,
                           originalSize := none,
                           processing := some "ocr_no_text_found" },
        success := true } ∧
    OCR_NO_TEXT_MESSAGE ≠ "" := by
  have hext : extractTextWithOCR env.image none =
      .ok { text := OCR_NO_TEXT_MESSAGE,
            metadata := some { type := "image", confidence := some conf,
                               originalSize := none,
                               processing := some "ocr_no_text_found" } } := by
    unfold extractTextWithOCR
    rw [hocr]
    simp [ht]
  have himgres : extractFromImage env.image f.url none =
      { text := OCR_NO_TEXT_MESSAGE,
        metadata := some { type := "image", confidence := some conf,
                           originalSize := none,
                           processing := some "ocr_no_text_found" } } := by
    simp [extractFromImage, hkey, hext]
  have hmem : f.type = "image/jpeg" ∨ f.type = "image/png" ∨ f.type = "image/webp" ∨ f.type = "image/gif" := by
    simpa using himg
  have hdisp := extractContent_image env f.url f.type none hmem
  rw [himgres] at hdisp
  constructor
  · unfold mkRecord
    rw [hdisp]
  · decide

/-- Concrete environment with no vision credential and an OCR result whose
text is empty. -/
def ocrEmptyEnv : FileEnv :=
  { fetchResult := .error "na", pdfParse := .error "na", mammothResult := .error "na",
    image := { hasApiKey := false, visionResponse := .error "na",
               ocrResult := .ok { text := "", confidence := 80 } } }

/-- The concrete image attachment used as witness input. -/
def scanFile : FileSpec := { name := "scan.png", url := "/uploads/scan.png", type := "image/png", size := 2048 }

/-- Witness for C9 at a concrete image attachment. -/
theorem image_ocr_no_text_success_witness :
    mkRecord scanFile ocrEmptyEnv =
      { fileName := scanFile.name, fileType := scanFile.type, fileSize := scanFile.size,
        content := OCR_NO_TEXT_MESSAGE,
        metadata := some { type := "image", confidence := some 80,
                           originalSize := none,
                           processing := some "ocr_no_text_found" },
        success := true } ∧
    OCR_NO_TEXT_MESSAGE ≠ "" :=
  image_ocr_no_text_success scanFile ocrEmptyEnv "" 80 (by decide) rfl rfl (by decide)

/-- The basic metadata-only description always has non-empty text. -/
theorem getBasicImageInfo_text_ne_empty (fileUrl : String) (fileSize : Option Nat) :
    (getBasicImageInfo fileUrl fileSize).text ≠ "" := by
  intro hEq
  have hlen := congrArg String.length hEq
  simp only [getBasicImageInfo, String.length_append] at hlen
  have h0 : ("" : String).length = 0 := rfl
  rw [h0] at hlen
  have hA : ("I can see that you\x27ve uploaded an image file named \"" : String).length ≠ 0 := by decide
  omega

/-- A successful OCR stage always returns non-empty text, both when text
was found and when the no-text advisory is used. -/
theorem extractTextWithOCR_ok_text_ne_empty (env : ImageEnv) (fileSize : Option Nat)
    (c : ExtractedContent) (h : extractTextWithOCR env fileSize = .ok c) :
    c.text ≠ "" := by
  cases ho : env.ocrResult with
  | error e =>
    simp [extractTextWithOCR, ho] at h
  | ok r =>
    simp only [extractTextWithOCR, ho] at h
    by_cases ht : jsTrim r.text = ""
    · rw [if_pos ht] at h
      injection h with h'
      rw [← h']
      show OCR_NO_TEXT_MESSAGE ≠ ""
      decide
    · rw [if_neg ht] at h
      injection h with h'
      rw [← h']
      exact append_ne_empty_left _ _ (by decide)

/-- The environment of a vision call answering a whitespace-only description. -/
def visionWhitespaceEnv : ImageEnv :=
  { hasApiKey := true, visionResponse := .ok (some " "), ocrResult := .error "ocr unavailable" }

/-- C10 counterexample: when the configured vision stage succeeds with a
description consisting of a single space, the resolver terminates on the
vision-success path with empty text, so the claim that every terminal path
yields non-empty content fails. -/
theorem image_text_empty_on_whitespace_vision :
    (extractFromImage visionWhitespaceEnv "photo.png" (some 10)).text = "" := by decide

/-- C10 amended: on the OCR-with-text, OCR-no-text and basic-description
terminal paths, and for the catch-all payload, the returned text is always
non-empty; on the vision-success path the text is exactly the trimmed
description, which is empty exactly when the description is whitespace
only. -/
theorem image_text_nonempty_paths (env : ImageEnv) (fileUrl : String) (fileSize : Option Nat) :
    ((env.hasApiKey = false ∨ (∃ e, analyzeImageWithVisionAPI env fileSize = .error e)) →
      (extractFromImage env fileUrl fileSize).text ≠ "") ∧
    (∀ d, env.hasApiKey = true → env.visionResponse = .ok (some d) → d ≠ "" →
      (extractFromImage env fileUrl fileSize).text = jsTrim d) ∧
    (∀ e, (allMethodsFailedContent e).text ≠ "") := by
  refine ⟨?_, ?_, ?_⟩
  · intro hfall
    have hva : (if env.hasApiKey then
                 match analyzeImageWithVisionAPI env fileSize with
                 | .ok c => some c
                 | .error _ => none
               else none) = (none : Option ExtractedContent) := by
      rcases hfall with hk | ⟨e, he⟩
      · rw [hk]
        simp
      · cases hk : env.hasApiKey with
        | false => simp
        | true =>
          rw [he]
          simp
    unfold extractFromImage
    rw [hva]
    cases ho : extractTextWithOCR env fileSize with
    | ok c =>
      exact extractTextWithOCR_ok_text_ne_empty env fileSize c ho
    | error e2 =>
      exact getBasicImageInfo_text_ne_empty fileUrl fileSize
  · intro d hk hv hd
    have ha : analyzeImageWithVisionAPI env fileSize =
        .ok { text := jsTrim d,
              metadata := some { wordCount := some (jsWordCount (jsTrim d)),
                                 type := "image", originalSize := fileSize,
                                 processing := some "vision_api_success" } } := by
      unfold analyzeImageWithVisionAPI
      rw [hk, hv]
      simp [hd]
    simp [extractFromImage, hk, ha]
  · intro e
    have he : (allMethodsFailedContent e).text = ALL_METHODS_FAILED_MESSAGE := rfl
    rw [he]
    decide

/-- Witness for the amended C10 theorem at a concrete environment whose
vision and OCR stages fail. -/
theorem image_text_nonempty_paths_witness :
    (extractFromImage { hasApiKey := false, visionResponse := .error "x", ocrResult := .error "y" }
      "a.png" none).text ≠ "" :=
  (image_text_nonempty_paths
    { hasApiKey := false, visionResponse := .error "x", ocrResult := .error "y" }
    "a.png" none).1 (Or.inl rfl)
